import Mathlib

/-!
Verification of the Nutanix automation scripts
(`ntnx-cluster-update-network.py`, `ntnx-cluster-update-sensor.py`,
`ntnx-create-network-function-provider.py`) against their natural-language
specification.  The Python code is shallowly embedded: JSON documents become
an inductive `Json` type with Python-dict operations (lookup, `d.get`,
`d[k]`, `d[k] = v`, `k in d`, truthiness), fallible code returns
`Except PyErr`, and every network interaction is modelled by a scripted
environment together with an explicit log of issued API requests.
-/

/-- JSON documents, with object and array spines inlined as constructors so
that decidable equality can be derived.  `objCons k v rest` is the dict entry
`k: v` followed by the remaining entries; `arrCons` likewise for lists. -/
inductive Json where
  | null : Json
  | str : String → Json
  | num : Int → Json
  | jbool : Bool → Json
  | objNil : Json
  | objCons : String → Json → Json → Json
  | arrNil : Json
  | arrCons : Json → Json → Json
deriving DecidableEq, Repr

/-- Build an object document from a list of key/value pairs. -/
def Json.obj : List (String × Json) → Json
  | [] => .objNil
  | (k, v) :: rest => .objCons k v (Json.obj rest)

/-- Build an array document from a list of elements. -/
def Json.arrOf : List Json → Json
  | [] => .arrNil
  | v :: rest => .arrCons v (Json.arrOf rest)

/-- Elements of an array document (empty for non-arrays). -/
def Json.toList : Json → List Json
  | .arrCons v rest => v :: rest.toList
  | _ => []

/-- Dict lookup: `some v` when the key is present, `none` otherwise
(also `none` on non-objects). -/
def Json.lookup : Json → String → Option Json
  | .objCons k v rest, key => if k = key then some v else rest.lookup key
  | _, _ => none

/-- Python `d.get(key, default)`. -/
def Json.getD (j : Json) (key : String) (d : Json) : Json :=
  (j.lookup key).getD d

/-- Python `key in d`. -/
def Json.hasKey (j : Json) (key : String) : Bool :=
  (j.lookup key).isSome

/-- Whether the document is a dict. -/
def Json.isObj : Json → Bool
  | .objNil => true
  | .objCons _ _ _ => true
  | _ => false

/-- Errors raised by the embedded Python code. -/
inductive PyErr where
  | keyError : String → PyErr
  | typeError : PyErr
  | apiError : String → PyErr
  | taskFailed : Json → PyErr
  | taskTimeout : Nat → PyErr
deriving DecidableEq, Repr

/-- Python `d[key]`: `KeyError` when missing, `TypeError` on a non-dict. -/
def Json.index (j : Json) (key : String) : Except PyErr Json :=
  if j.isObj then
    match j.lookup key with
    | some v => .ok v
    | none => .error (.keyError key)
  else .error .typeError

/-- Python `d[key] = v` on a dict: replaces the value in place when the key
exists, appends a new entry otherwise.  Non-dicts are returned unchanged
(the embedded code only reaches this on dicts). -/
def Json.setKey : Json → String → Json → Json
  | .objCons k v rest, key, nv =>
      if k = key then .objCons k nv rest else .objCons k v (rest.setKey key nv)
  | .objNil, key, nv => .objCons key nv .objNil
  | j, _, _ => j

/-- Python `d[key] = v` as a fallible operation: `TypeError` on non-dicts. -/
def Json.setIndex (j : Json) (key : String) (v : Json) : Except PyErr Json :=
  if j.isObj then .ok (j.setKey key v) else .error .typeError

/-- Python truthiness of a JSON value. -/
def Json.truthy : Json → Bool
  | .null => false
  | .str s => decide (s ≠ "")
  | .num n => decide (n ≠ 0)
  | .jbool b => b
  | .objNil => false
  | .objCons _ _ _ => true
  | .arrNil => false
  | .arrCons _ _ => true

/-- Keep an optional value only when it is Python-truthy (models
`x = d.get(k)` followed by `if not x: ...`). -/
def truthyOpt : Option Json → Option Json
  | some j => if j.truthy then some j else none
  | none => none

/-- Whether an `Except` computation succeeded. -/
def exOk {α : Type} : Except PyErr α → Bool
  | .ok _ => true
  | .error _ => false

/-- API requests issued by the scripts, identified structurally
(endpoint plus body where the body varies). -/
inductive ApiReq where
  | subnetsList : Int → Int → ApiReq
  | putSubnet : Json → Json → ApiReq
  | getTask : Json → ApiReq
  | getVm : Json → ApiReq
  | putVm : Json → Json → ApiReq
  | putCategory : ApiReq
  | putCategoryValue : String → ApiReq
  | listCategories : ApiReq
  | listClusters : ApiReq
  | postChain : Json → ApiReq
  | listChains : ApiReq
deriving DecidableEq, Repr

/-! ## Task tracker (`NutanixAPI.wait_for_task`, both script variants)

The tracker polls a scripted sequence of status documents.  Wall-clock time
is modelled by the poll/sleep structure of the loop: polls are instantaneous
and each `time.sleep(interval_secs)` advances the clock by exactly
`interval_secs`, so `time.time() - start_time` equals the number of sleeps
so far times the interval. -/

/-- Terminal outcome of the tracker: the SUCCEEDED document, a raised error,
or exhaustion of the scripted poll sequence (a model artifact that real runs
never produce, since the control plane always answers a poll). -/
inductive TrackOutcome where
  | done : Json → TrackOutcome
  | raised : PyErr → TrackOutcome
  | exhausted : TrackOutcome
deriving DecidableEq, Repr

/-- Counters observed while tracking: polls issued, sleeps performed, and
the modelled elapsed time when the loop ended. -/
structure TrackStats where
  polls : Nat
  sleeps : Nat
  elapsedAtEnd : Nat
deriving DecidableEq, Repr

/-- Core polling loop of `wait_for_task`, parametrised by the state and
error-detail extraction (the two scripts read them from different places in
the status document).  Mirrors the Python `while True` loop: poll, return on
SUCCEEDED, raise on FAILED, raise on `elapsed > timeout`, else sleep. -/
def waitLoop (gs gd : Json → Json) (timeoutSecs intervalSecs : Nat) :
    List Json → Nat → Nat → Nat → TrackOutcome × TrackStats
  | [], elapsed, polls, sleeps => (.exhausted, ⟨polls, sleeps, elapsed⟩)
  | doc :: rest, elapsed, polls, sleeps =>
    if gs doc = Json.str "SUCCEEDED" then
      (.done doc, ⟨polls + 1, sleeps, elapsed⟩)
    else if gs doc = Json.str "FAILED" then
      (.raised (.taskFailed (gd doc)), ⟨polls + 1, sleeps, elapsed⟩)
    else if timeoutSecs < elapsed then
      (.raised (.taskTimeout timeoutSecs), ⟨polls + 1, sleeps, elapsed⟩)
    else
      waitLoop gs gd timeoutSecs intervalSecs rest (elapsed + intervalSecs)
        (polls + 1) (sleeps + 1)

/-- State extraction of the network script: `task_status.get("status", "")`
(the status value itself is compared against the state strings). -/
def stateNet (doc : Json) : Json := doc.getD "status" (.str "")

/-- Error detail of the network script:
`task_status.get("error_detail", ...)` with the placeholder default. -/
def detailNet (doc : Json) : Json :=
  doc.getD "error_detail" (.str "No error details available")

/-- State extraction of the sensor script:
`task_status.get("status", ...).get("state", "")`. -/
def stateVm (doc : Json) : Json :=
  (doc.getD "status" .objNil).getD "state" (.str "")

/-- Error detail of the sensor script:
`current_status.get("error_detail", ...)` with the placeholder default. -/
def detailVm (doc : Json) : Json :=
  (doc.getD "status" .objNil).getD "error_detail"
    (.str "No error details available")

/-- `wait_for_task` of `ntnx-cluster-update-network.py` over a scripted poll
sequence. -/
def wait_for_task_net (script : List Json) (timeoutSecs intervalSecs : Nat) :
    TrackOutcome × TrackStats :=
  waitLoop stateNet detailNet timeoutSecs intervalSecs script 0 0 0

/-- `wait_for_task` of `ntnx-cluster-update-sensor.py` over a scripted poll
sequence. -/
def wait_for_task_vm (script : List Json) (timeoutSecs intervalSecs : Nat) :
    TrackOutcome × TrackStats :=
  waitLoop stateVm detailVm timeoutSecs intervalSecs script 0 0 0

/-! ## Mutation planners -/

/-- The chain reference document inserted by both network planners
(kind network_function_chain, name vectra_tap, uuid chain_uuid). -/
def chainRefObj (chain_uuid : Json) : Json :=
  Json.obj [("kind", .str "network_function_chain"),
            ("name", .str "vectra_tap"),
            ("uuid", chain_uuid)]

/-- Planning core of the standalone `update_network` function
(`ntnx-cluster-update-network.py` lines 213-246), after the network has been
fetched: check the network UUID, build the metadata-plus-spec update dict,
test membership of the chain-reference key in `update_spec["spec"]["resources"]`
(a bare index into `resources`), and on the absent case REPLACE the whole
`resources` dict with one holding only the chain reference.  Returns
`.ok none` for the skip branch and `.ok (some payload)` for the update
payload that would be submitted. -/
def update_network_plan (network : Json) (chain_uuid : Json) :
    Except PyErr (Option Json) :=
  let md := network.getD "metadata" .objNil
  match truthyOpt (md.lookup "uuid") with
  | none => .error (.apiError "Network UUID not found in metadata")
  | some _ =>
    let sp := network.getD "spec" .objNil
    match sp.index "resources" with
    | .error e => .error e
    | .ok res =>
      if res.hasKey "network_function_chain_reference" then
        .ok none
      else if chain_uuid.truthy then
        .ok (some (Json.obj [("metadata", md),
          ("spec", sp.setKey "resources"
            (Json.obj [("network_function_chain_reference",
                        chainRefObj chain_uuid)]))]))
      else .error (.apiError "Network function chain UUID is required")

/-- Planning core of the batch flow in `main`
(`ntnx-cluster-update-network.py` lines 319-331): build
the metadata-plus-spec update dict, test membership against
`update_spec["spec"].get("resources", ...)`, and on the absent case insert
the chain reference with an item assignment through
`update_spec["spec"]["resources"]`
(a bare index into `resources`, then an item assignment that preserves the
other entries of the dict). -/
def main_plan (network : Json) (chain_uuid : Json) :
    Except PyErr (Option Json) :=
  let md := network.getD "metadata" .objNil
  let sp := network.getD "spec" .objNil
  if (sp.getD "resources" .objNil).hasKey "network_function_chain_reference" then
    .ok none
  else
    match sp.index "resources" with
    | .error e => .error e
    | .ok res =>
      match res.setIndex "network_function_chain_reference"
          (chainRefObj chain_uuid) with
      | .error e => .error e
      | .ok res2 =>
        .ok (some (Json.obj [("metadata", md),
                             ("spec", sp.setKey "resources" res2)]))

/-- Payload construction of `update_vsensor`
(`ntnx-cluster-update-sensor.py` lines 192-204): index
`vm_details["metadata"]`, create `metadata.categories` as an empty dict
when the key is absent, unconditionally assign the provider value
vectra_ai to `categories["network_function_provider"]`, and submit the
whole (mutated) fetched document.  There is no skip branch. -/
def update_vsensor_payload (vm_details : Json) : Except PyErr Json :=
  match vm_details.index "metadata" with
  | .error e => .error e
  | .ok md =>
    let md1 := if md.hasKey "categories" then md else md.setKey "categories" .objNil
    match md1.index "categories" with
    | .error e => .error e
    | .ok cats =>
      match cats.setIndex "network_function_provider" (.str "vectra_ai") with
      | .error e => .error e
      | .ok cats2 =>
        .ok (vm_details.setKey "metadata" (md1.setKey "categories" cats2))

/-- Scripted environment for a full `update_vsensor` run: the fetched VM
document, the response to the PUT, and the scripted poll sequence for the
resulting task. -/
structure VmEnv where
  vmDoc : Json
  putResp : Json
  taskScript : List Json

/-- Map a tracker outcome to the error it raises (if any); script exhaustion
is flagged with a model-artifact error no theorem relies on. -/
def outcomeErr : TrackOutcome → Option PyErr
  | .done _ => none
  | .raised e => some e
  | .exhausted => some (.apiError "model artifact: poll script exhausted")

/-- Full `update_vsensor` flow (`ntnx-cluster-update-sensor.py` lines
182-211): GET the VM, build the payload, PUT it, and when the response
carries a PENDING state follow
`result["status"]["execution_context"]["task_uuid"]` into `wait_for_task`.
Returns the issued requests and the raised error, if any. -/
def update_vsensor_run (env : VmEnv) (vm_uuid : Json) :
    List ApiReq × Option PyErr :=
  let r0 := ApiReq.getVm vm_uuid
  match update_vsensor_payload env.vmDoc with
  | .error e => ([r0], some e)
  | .ok payload =>
    let r1 := ApiReq.putVm vm_uuid payload
    if (env.putResp.getD "status" .objNil).lookup "state"
        = some (.str "PENDING") then
      match env.putResp.index "status" with
      | .error e => ([r0, r1], some e)
      | .ok st =>
        match st.index "execution_context" with
        | .error e => ([r0, r1], some e)
        | .ok ec =>
          match ec.index "task_uuid" with
          | .error e => ([r0, r1], some e)
          | .ok tuuid =>
            let (outcome, stats) := wait_for_task_vm env.taskScript 300 5
            ([r0, r1] ++ List.replicate stats.polls (ApiReq.getTask tuuid),
             outcomeErr outcome)
    else ([r0, r1], none)

/-! ## Entity locator (`list_networks`, `find_network_by_vlan`) -/

/-- `list_networks` (`ntnx-cluster-update-network.py` lines 81-97): issue a
single `POST subnets/list` with the given offset and length and return
`response.get("entities", [])`, together with the log of issued requests.
The body makes exactly one request; there is no loop over further pages. -/
def list_networks (server : ApiReq → Json) (offset length : Int) :
    List Json × List ApiReq :=
  let req := ApiReq.subnetsList offset length
  let response := server req
  ((response.getD "entities" .arrNil).toList, [req])

/-- The VLAN match of `find_network_by_vlan`:
`network.get("spec", ...).get("resources", ...).get("vlan_id") == vlan_id`. -/
def netHasVlan (vlan : Int) (network : Json) : Bool :=
  decide (((network.getD "spec" .objNil).getD "resources" .objNil).lookup
      "vlan_id" = some (.num vlan))

/-- The linear scan of `find_network_by_vlan`: return the first network of
the page matching the VLAN, else `None`. -/
def scanForVlan (vlan : Int) : List Json → Option Json
  | [] => none
  | n :: rest => if netHasVlan vlan n then some n else scanForVlan vlan rest

/-- `find_network_by_vlan` (`ntnx-cluster-update-network.py` lines 110-125):
one call to `list_networks`, then a linear scan of that single page. -/
def find_network_by_vlan (server : ApiReq → Json) (vlan : Int)
    (offset length : Int) : Option Json × List ApiReq :=
  let (networks, reqs) := list_networks server offset length
  (scanForVlan vlan networks, reqs)

/-- A control plane holding a fixed collection of subnets and answering
`subnets/list` with the page `collection[offset : offset+length]` wrapped in
the `{entities: [...]}` response convention. -/
def pageServer (coll : List Json) : ApiReq → Json
  | .subnetsList o l =>
      Json.obj [("entities", Json.arrOf ((coll.drop o.toNat).take l.toNat))]
  | _ => .null

/-! ## Grouping of vectra_tap chains by cluster (`main`, network script) -/

/-- Qualification test of one chain in the `cluster_chains` loop
(`ntnx-cluster-update-network.py` lines 258-267): the spec name must equal
vectra_tap, and the cluster name and chain UUID must be present and
truthy.  Returns the cluster-name key and the stored info dict
(uuid and created). -/
def qualInfo (chain : Json) : Option (Json × Json) :=
  let sp := chain.getD "spec" .objNil
  let md := chain.getD "metadata" .objNil
  if sp.lookup "name" = some (.str "vectra_tap") then
    match truthyOpt ((sp.getD "cluster_reference" .objNil).lookup "name") with
    | none => none
    | some cn =>
      match truthyOpt (md.lookup "uuid") with
      | none => none
      | some uu =>
        some (cn, Json.obj [("uuid", uu),
          ("created", (md.lookup "creation_time").getD .null)])
  else none

/-- Association-list lookup keyed by JSON values (the `cluster_chains`
dict). -/
def lookupA : List (Json × Json) → Json → Option Json
  | [], _ => none
  | (k1, v) :: rest, k => if k1 = k then some v else lookupA rest k

/-- Association-list update with Python-dict semantics: replace in place or
append. -/
def setKeyA : List (Json × Json) → Json → Json → List (Json × Json)
  | [], k, v => [(k, v)]
  | (k1, v1) :: rest, k, v =>
      if k1 = k then (k, v) :: rest else (k1, v1) :: setKeyA rest k v

/-- Keys of the association list. -/
def keysA (m : List (Json × Json)) : List Json := m.map Prod.fst

/-- The `cluster_chains` loop with an explicit accumulator: each qualifying
chain overwrites the entry of its cluster name. -/
def buildClusterChainsAux : List Json → List (Json × Json) → List (Json × Json)
  | [], acc => acc
  | chain :: rest, acc =>
    match qualInfo chain with
    | none => buildClusterChainsAux rest acc
    | some (cn, info) => buildClusterChainsAux rest (setKeyA acc cn info)

/-- The `cluster_chains` grouping built by `main`
(`ntnx-cluster-update-network.py` lines 256-267). -/
def buildClusterChains (chains : List Json) : List (Json × Json) :=
  buildClusterChainsAux chains []

/-- Specification-side description of which chain wins for a cluster name:
the LAST qualifying chain in listing order (later entries are preferred). -/
def lastQualFor (k : Json) : List Json → Option Json
  | [] => none
  | chain :: rest =>
    match lastQualFor k rest with
    | some info => some info
    | none =>
      match qualInfo chain with
      | some (cn, info) => if cn = k then some info else none
      | none => none

/-! ## Batch flow over matched networks (`main`, network script) -/

/-- One entry of `matching_networks`
(`ntnx-cluster-update-network.py` lines 288-292). -/
structure MatchedNet where
  network : Json
  cluster_name : Json
  chain_uuid : Json
deriving DecidableEq, Repr

/-- Scripted environment for the batch flow: the response to each subnet
PUT and the scripted poll sequence of each task. -/
structure NetEnv where
  putResp : Json → Json → Json
  taskScript : Json → List Json

/-- Processing of one matched network inside the batch loop
(`ntnx-cluster-update-network.py` lines 302-343): skip when the UUID is
falsy, plan via `main_plan`, submit the PUT, and when the response carries
a PENDING state follow
`result["status"]["execution_context"]["task_uuid"]` into `wait_for_task`.
Returns the issued requests and the raised error, if any. -/
def processOne (env : NetEnv) (m : MatchedNet) : List ApiReq × Option PyErr :=
  match truthyOpt ((m.network.getD "metadata" .objNil).lookup "uuid") with
  | none => ([], none)
  | some u =>
    match main_plan m.network m.chain_uuid with
    | .error e => ([], some e)
    | .ok none => ([], none)
    | .ok (some payload) =>
      let result := env.putResp u payload
      let r1 := ApiReq.putSubnet u payload
      if (result.getD "status" .objNil).lookup "state"
          = some (.str "PENDING") then
        match result.index "status" with
        | .error e => ([r1], some e)
        | .ok st =>
          match st.index "execution_context" with
          | .error e => ([r1], some e)
          | .ok ec =>
            match ec.index "task_uuid" with
            | .error e => ([r1], some e)
            | .ok tuuid =>
              let (outcome, stats) :=
                wait_for_task_net (env.taskScript tuuid) 300 5
              ([r1] ++ List.replicate stats.polls (ApiReq.getTask tuuid),
               outcomeErr outcome)
      else ([r1], none)

/-- The batch loop itself: the `for match in matching_networks` body runs
inside the single try/except of `main`, so a raised error propagates out of
the loop and the remaining entries are not processed. -/
def processBatch (env : NetEnv) : List MatchedNet → List ApiReq × Option PyErr
  | [] => ([], none)
  | m :: rest =>
    let (reqs, e?) := processOne env m
    match e? with
    | some e => (reqs, some e)
    | none =>
      let (reqs2, e2) := processBatch env rest
      (reqs ++ reqs2, e2)

/-- Requests issued by a leading portion of the batch (used to state where the batch
stopped). -/
def reqsOf (env : NetEnv) : List MatchedNet → List ApiReq
  | [] => []
  | m :: rest => (processOne env m).1 ++ reqsOf env rest

/-! ## Provisioning flow (`ntnx-create-network-function-provider.py`) -/

/-- Body of `create_network_function_chain`
(`ntnx-create-network-function-provider.py` lines 123-147). -/
def chainBody (chain_name provider_value : String)
    (cluster_name cluster_uuid : Json) : Json :=
  Json.obj [
    ("spec", Json.obj [
      ("name", .str chain_name),
      ("resources", Json.obj [
        ("network_function_list", Json.arrOf [Json.obj [
          ("network_function_type", .str "TAP"),
          ("category_filter", Json.obj [
            ("type", .str "CATEGORIES_MATCH_ANY"),
            ("params", Json.obj [
              ("network_function_provider",
               Json.arrOf [.str provider_value])])])]])]),
      ("cluster_reference", Json.obj [
        ("kind", .str "cluster"),
        ("name", cluster_name),
        ("uuid", cluster_uuid)])]),
    ("api_version", .str "3.1.0"),
    ("metadata", Json.obj [("kind", .str "network_function_chain")])]

/-- Scripted environment for the provisioning flow: the verification
listing, the cluster listing, and the response to the i-th chain-creation
POST. -/
structure ProvEnv where
  categories : List Json
  clusters : List Json
  chainResp : Nat → Json

/-- Extraction of `cluster["spec"]["name"]` and `cluster["metadata"]["uuid"]`
(bare indexing, as in `main` lines 194-195). -/
def clusterKeys (c : Json) : Except PyErr (Json × Json) :=
  match c.index "spec" with
  | .error e => .error e
  | .ok sp =>
    match sp.index "name" with
    | .error e => .error e
    | .ok nm =>
      match c.index "metadata" with
      | .error e => .error e
      | .ok md =>
        match md.index "uuid" with
        | .error e => .error e
        | .ok uu => .ok (nm, uu)

/-- Whether a chain-creation response allows the subsequent
`chain["metadata"]["uuid"]` access to succeed. -/
def chainRespOK (j : Json) : Bool :=
  match j.index "metadata" with
  | .error _ => false
  | .ok md => exOk (md.index "uuid")

/-- The chain-creation request issued for a (well-formed) cluster. -/
def chainReqOf (c : Json) : ApiReq :=
  ApiReq.postChain (chainBody "vectra_tap" "vectra_ai"
    ((c.getD "spec" .objNil).getD "name" .null)
    ((c.getD "metadata" .objNil).getD "uuid" .null))

/-- The per-cluster loop of the provisioning `main` (lines 193-204): read
the cluster name and UUID (bare indexing), POST the chain, then index
`chain["metadata"]["uuid"]` from the response; any raise aborts the loop. -/
def clusterLoop (env : ProvEnv) : List Json → Nat → List ApiReq × Option PyErr
  | [], _ => ([], none)
  | cluster :: rest, i =>
    match clusterKeys cluster with
    | .error e => ([], some e)
    | .ok (nm, uu) =>
      let req := ApiReq.postChain (chainBody "vectra_tap" "vectra_ai" nm uu)
      let resp := env.chainResp i
      match resp.index "metadata" with
      | .error e => ([req], some e)
      | .ok md =>
        match md.index "uuid" with
        | .error e => ([req], some e)
        | .ok _ =>
          let (reqs, e2) := clusterLoop env rest (i + 1)
          (req :: reqs, e2)

/-- Verification predicate of the provisioning flow:
`any(entity.get("value") == provider_value for entity in categories)`. -/
def catValueMatch (ent : Json) : Bool :=
  decide (ent.lookup "value" = some (.str "vectra_ai"))

/-- The provisioning `main`
(`ntnx-create-network-function-provider.py` lines 159-208): create the
category, assign the value, list-and-verify (raising before any chain
creation when the value is absent), list clusters (raising when none), then
create one chain per cluster and finally list all chains.  Returns the
issued requests and the raised error, if any. -/
def provisionMain (env : ProvEnv) : List ApiReq × Option PyErr :=
  let pre := [ApiReq.putCategory, ApiReq.putCategoryValue "vectra_ai",
              ApiReq.listCategories]
  if env.categories.any catValueMatch then
    let pre2 := pre ++ [ApiReq.listClusters]
    if env.clusters.isEmpty then
      (pre2, some (.apiError "No clusters found"))
    else
      let (reqs, e?) := clusterLoop env env.clusters 0
      match e? with
      | some e => (pre2 ++ reqs, some e)
      | none => (pre2 ++ reqs ++ [ApiReq.listChains], none)
  else
    (pre, some (.apiError
      "Provider value vectra_ai was not found in categories after creation"))

/-! ## VM name search (`find_vm_by_name`, sensor script) -/

/-- Whether the list starts with the given pattern (character-wise). -/
def startsWithL : List Char → List Char → Bool
  | _, [] => true
  | [], _ :: _ => false
  | a :: as, b :: bs => a = b && startsWithL as bs

/-- Whether the pattern occurs contiguously anywhere in the list.  This is
the semantics of `re.search(re.escape(pattern), text)`: the escaped pattern
matches itself literally, so a match is exactly a contiguous occurrence. -/
def occursIn (pat : List Char) : List Char → Bool
  | [] => startsWithL [] pat
  | a :: as => startsWithL (a :: as) pat || occursIn pat as

/-- ASCII-style lowering of a string to a character list (the model of
`re.IGNORECASE`: both sides are compared case-folded). -/
def lowerStr (s : String) : List Char := s.toList.map Char.toLower

/-- Case-insensitive literal containment, modelling
`re.compile(re.escape(vm_name), re.IGNORECASE).search(current_name)`. -/
def ciMatch (q name : String) : Bool := occursIn (lowerStr q) (lowerStr name)

/-- String content of a JSON value (the embedded code only applies it to
string-valued name fields). -/
def asStr : Json → String
  | .str s => s
  | _ => ""

/-- The spec name read by `find_vm_by_name`:
`vm.get("spec", ...).get("name", "")`. -/
def specNameOf (vm : Json) : String :=
  asStr ((vm.getD "spec" .objNil).getD "name" (.str ""))

/-- `find_vm_by_name` (`ntnx-cluster-update-sensor.py` lines 160-180):
scan the VM list in order, returning the UUID and name of the first VM whose
spec name matches case-insensitively, and `none` (Python `(None, None)`)
when no VM matches. -/
def find_vm_by_name (vms : List Json) (vm_name : String) :
    Option (Json × String) :=
  match vms with
  | [] => none
  | vm :: rest =>
    let current_name := specNameOf vm
    let current_uuid := (vm.getD "metadata" .objNil).getD "uuid" (.str "")
    if ciMatch vm_name current_name then some (current_uuid, current_name)
    else find_vm_by_name rest vm_name

/-- Decidable equality for the fallible results of the embedded code. -/
instance {α : Type} [DecidableEq α] : DecidableEq (Except PyErr α) := fun a b =>
  match a, b with
  | .ok x, .ok y =>
    if h : x = y then isTrue (by rw [h]) else isFalse (by intro hc; cases hc; exact h rfl)
  | .error e, .error f =>
    if h : e = f then isTrue (by rw [h]) else isFalse (by intro hc; cases hc; exact h rfl)
  | .ok _, .error _ => isFalse (by intro hc; cases hc)
  | .error _, .ok _ => isFalse (by intro hc; cases hc)

/-! ## Concrete documents and environments used in the theorems below -/

/-- A fetched network: UUID present, `spec.resources` holds `vlan_id: 55`
and no chain reference yet. -/
def cxNet : Json := Json.obj [
  ("metadata", Json.obj [("uuid", .str "u1")]),
  ("spec", Json.obj [("name", .str "net-55"),
    ("resources", Json.obj [("vlan_id", .num 55)])])]

/-- The payload the batch-flow planner builds for `cxNet`: the fetched
document with exactly `network_function_chain_reference` added under
`spec.resources`, everything else verbatim. -/
def cxNetMainPayload : Json := Json.obj [
  ("metadata", Json.obj [("uuid", .str "u1")]),
  ("spec", Json.obj [("name", .str "net-55"),
    ("resources", Json.obj [("vlan_id", .num 55),
      ("network_function_chain_reference", chainRefObj (.str "c1"))])])]

/-- The payload the standalone `update_network` builds for `cxNet`: the
`resources` dict is replaced wholesale by one holding only the chain
reference, so `vlan_id` is gone. -/
def cxNetUpdPayload : Json := Json.obj [
  ("metadata", Json.obj [("uuid", .str "u1")]),
  ("spec", Json.obj [("name", .str "net-55"),
    ("resources", Json.obj [
      ("network_function_chain_reference", chainRefObj (.str "c1"))])])]

/-- A network with a spec but no `resources` key at all. -/
def cxNetNoRes : Json := Json.obj [
  ("metadata", Json.obj [("uuid", .str "u9")]),
  ("spec", Json.obj [("name", .str "netX")])]

/-- A network whose `spec.resources` already holds the chain reference. -/
def cxNetDone : Json := Json.obj [
  ("metadata", Json.obj [("uuid", .str "u3")]),
  ("spec", Json.obj [("name", .str "net-done"),
    ("resources", Json.obj [("vlan_id", .num 55),
      ("network_function_chain_reference", chainRefObj (.str "c0"))])])]

/-- A fetched VM whose `metadata.categories` already carries
`network_function_provider: vectra_ai`. -/
def cxVmConf : Json := Json.obj [
  ("metadata", Json.obj [("uuid", .str "v1"),
    ("categories", Json.obj [("network_function_provider", .str "vectra_ai")])]),
  ("spec", Json.obj [("name", .str "vSensor-01")])]

/-- A fetched VM with metadata but no `categories` bag. -/
def cxVmNoCats : Json := Json.obj [
  ("metadata", Json.obj [("uuid", .str "v2")]),
  ("spec", Json.obj [("name", .str "vSensor-02")])]

/-- Environment for a sensor run against the already-configured VM: the PUT
response is terminal (no PENDING state), so no task is tracked. -/
def cxVmEnv : VmEnv :=
  ⟨cxVmConf, Json.obj [("status", Json.obj [("state", .str "COMPLETE")])], []⟩

/-- A PENDING poll document shaped for the network script. -/
def cxPendNet : Json := Json.obj [("status", .str "PENDING")]

/-- A SUCCEEDED poll document shaped for the network script. -/
def cxSuccNet : Json := Json.obj [("status", .str "SUCCEEDED")]

/-- A FAILED poll document (network shape) with an error detail. -/
def cxFailNet : Json :=
  Json.obj [("status", .str "FAILED"), ("error_detail", .str "boom")]

/-- A FAILED poll document (network shape) without an error detail. -/
def cxFailNetBare : Json := Json.obj [("status", .str "FAILED")]

/-- A PENDING poll document shaped for the sensor script. -/
def cxPendVm : Json := Json.obj [("status", Json.obj [("state", .str "PENDING")])]

/-- A SUCCEEDED poll document shaped for the sensor script. -/
def cxSuccVm : Json :=
  Json.obj [("status", Json.obj [("state", .str "SUCCEEDED")])]

/-- A FAILED poll document (sensor shape) with an error detail. -/
def cxFailVm : Json := Json.obj [("status",
  Json.obj [("state", .str "FAILED"), ("error_detail", .str "kaput")])]

/-- Three subnets: the first two on the first page (VLANs 7 and 8), the
third (VLAN 55) on the second page of a page size of 2. -/
def cxE1 : Json := Json.obj [("metadata", Json.obj [("uuid", .str "n1")]),
  ("spec", Json.obj [("resources", Json.obj [("vlan_id", .num 7)])])]

/-- Second subnet of the three-entity collection. -/
def cxE2 : Json := Json.obj [("metadata", Json.obj [("uuid", .str "n2")]),
  ("spec", Json.obj [("resources", Json.obj [("vlan_id", .num 8)])])]

/-- Third subnet of the three-entity collection, the only VLAN-55 one. -/
def cxE3 : Json := Json.obj [("metadata", Json.obj [("uuid", .str "n3")]),
  ("spec", Json.obj [("resources", Json.obj [("vlan_id", .num 55)])])]

/-- A collection of pageSize (2) entities plus a final page of pageSize-1
(1) entities. -/
def cxColl : List Json := [cxE1, cxE2, cxE3]

/-- Two matched networks for the batch flow, with VLAN 55 and no chain
reference yet. -/
def cxM1 : MatchedNet := ⟨cxNet, .str "A", .str "c1"⟩

/-- Second matched network of the batch. -/
def cxM2 : MatchedNet :=
  ⟨Json.obj [("metadata", Json.obj [("uuid", .str "u2")]),
    ("spec", Json.obj [("name", .str "net-55-b"),
      ("resources", Json.obj [("vlan_id", .num 55)])])],
   .str "A", .str "c1"⟩

/-- Batch environment in which every subnet PUT is accepted as PENDING with
task `t1`, and every task immediately polls FAILED. -/
def cxEnvC6 : NetEnv :=
  ⟨fun _ _ => Json.obj [("status", Json.obj [("state", .str "PENDING"),
      ("execution_context", Json.obj [("task_uuid", .str "t1")])])],
   fun _ => [cxFailNet]⟩

/-- A category entity carrying the expected provider value. -/
def cxCatOk : Json := Json.obj [("value", .str "vectra_ai")]

/-- Provisioning environment whose cluster listing is empty, with the
verification listing containing the provider value. -/
def cxProvEnvEmpty : ProvEnv := ⟨[cxCatOk], [], fun _ => Json.null⟩

/-- A well-formed cluster document. -/
def cxCluster : Json := Json.obj [("spec", Json.obj [("name", .str "A")]),
  ("metadata", Json.obj [("uuid", .str "cu1")])]

/-- A chain-creation response carrying `metadata.uuid`. -/
def cxChainResp : Json :=
  Json.obj [("metadata", Json.obj [("uuid", .str "ch1")])]

/-- Provisioning environment with one well-formed cluster. -/
def cxProvEnv : ProvEnv := ⟨[cxCatOk], [cxCluster], fun _ => cxChainResp⟩

/-- Two vectra_tap chains on the same cluster name with distinct UUIDs. -/
def cxChainA1 : Json := Json.obj [("spec", Json.obj [
    ("name", .str "vectra_tap"),
    ("cluster_reference", Json.obj [("name", .str "A")])]),
  ("metadata", Json.obj [("uuid", .str "ca1"), ("creation_time", .str "t1")])]

/-- The later chain on the same cluster name. -/
def cxChainA2 : Json := Json.obj [("spec", Json.obj [
    ("name", .str "vectra_tap"),
    ("cluster_reference", Json.obj [("name", .str "A")])]),
  ("metadata", Json.obj [("uuid", .str "ca2"), ("creation_time", .str "t2")])]

/-- A properly formed dict spine: every tail again a dict, ending in
`objNil`.  Documents coming from real JSON always satisfy this; it rules out
model-only junk spines on which Python item assignment has no counterpart. -/
def Json.okObj : Json → Bool
  | .objNil => true
  | .objCons _ _ rest => rest.okObj
  | _ => false

/-! ## Helper lemmas about the dict operations -/

/-- A successful lookup can only happen on a dict. -/
theorem Json.lookup_isObj {j : Json} {k : String} {v : Json}
    (h : j.lookup k = some v) : j.isObj = true := by
  cases j <;> simp_all [Json.lookup, Json.isObj]

/-- A proper dict spine is a dict. -/
theorem Json.okObj_isObj {j : Json} (h : j.okObj = true) : j.isObj = true := by
  cases j <;> simp_all [Json.okObj, Json.isObj]

/-- Bare indexing succeeds exactly when the lookup does. -/
theorem Json.index_ok_iff {j : Json} {k : String} {v : Json} :
    j.index k = .ok v ↔ j.lookup k = some v := by
  constructor
  · intro h
    unfold Json.index at h
    split at h
    · split at h
      · simp_all
      · cases h
    · cases h
  · intro h
    unfold Json.index
    rw [Json.lookup_isObj h]
    simp [h]

/-- Item assignment keeps dicts dicts and leaves non-dicts alone. -/
theorem Json.isObj_setKey (j : Json) (k : String) (v : Json) :
    (j.setKey k v).isObj = j.isObj := by
  cases j with
  | objCons k1 v1 rest =>
    by_cases hk : k1 = k <;> simp [Json.setKey, hk, Json.isObj]
  | objNil => rfl
  | null => rfl
  | str s => rfl
  | num n => rfl
  | jbool b => rfl
  | arrNil => rfl
  | arrCons a r => rfl

/-- Item assignment preserves properness of the spine. -/
theorem Json.okObj_setKey (j : Json) (k : String) (v : Json) :
    (j.setKey k v).okObj = j.okObj := by
  induction j with
  | objCons k1 v1 rest ih1 ih2 =>
    by_cases hk : k1 = k <;> simp [Json.setKey, hk, Json.okObj, ih2]
  | objNil => rfl
  | null => rfl
  | str s => rfl
  | num n => rfl
  | jbool b => rfl
  | arrNil => rfl
  | arrCons a r ih1 ih2 => rfl

/-- Looking up the assigned key after item assignment on a proper dict. -/
theorem Json.lookup_setKey_self {j : Json} (k : String) (v : Json)
    (h : j.okObj = true) : (j.setKey k v).lookup k = some v := by
  induction j with
  | objCons k1 v1 rest ih1 ih2 =>
    by_cases hk : k1 = k
    · subst hk; simp [Json.setKey, Json.lookup]
    · simp only [Json.setKey, hk, if_false, Json.lookup, if_neg]
      exact ih2 (by simpa [Json.okObj] using h)
  | objNil => simp [Json.setKey, Json.lookup]
  | null => simp [Json.okObj] at h
  | str s => simp [Json.okObj] at h
  | num n => simp [Json.okObj] at h
  | jbool b => simp [Json.okObj] at h
  | arrNil => simp [Json.okObj] at h
  | arrCons a r ih1 ih2 => simp [Json.okObj] at h

/-- Overwriting a key that is present yields the new value on lookup,
whatever the rest of the spine looks like. -/
theorem Json.lookup_setKey_some {j : Json} {k : String} {w : Json} (v : Json)
    (h : j.lookup k = some w) : (j.setKey k v).lookup k = some v := by
  induction j with
  | objCons k1 v1 rest ih1 ih2 =>
    by_cases hk : k1 = k
    · subst hk; simp [Json.setKey, Json.lookup]
    · simp only [Json.lookup, hk, if_false] at h
      simp only [Json.setKey, hk, if_false, Json.lookup, if_neg hk]
      exact ih2 h
  | objNil => simp [Json.lookup] at h
  | null => simp [Json.lookup] at h
  | str s => simp [Json.lookup] at h
  | num n => simp [Json.lookup] at h
  | jbool b => simp [Json.lookup] at h
  | arrNil => simp [Json.lookup] at h
  | arrCons a r ih1 ih2 => simp [Json.lookup] at h

/-- Looking up a different key after item assignment. -/
theorem Json.lookup_setKey_ne {j : Json} {k k2 : String} (v : Json)
    (h : k ≠ k2) : (j.setKey k v).lookup k2 = j.lookup k2 := by
  induction j with
  | objCons k1 v1 rest ih1 ih2 =>
    by_cases hk : k1 = k
    · subst hk; simp [Json.setKey, Json.lookup, h]
    · simp only [Json.setKey, hk, if_false, Json.lookup]
      by_cases hk2 : k1 = k2 <;> simp [hk2, ih2]
  | objNil => simp [Json.setKey, Json.lookup, h]
  | null => rfl
  | str s => rfl
  | num n => rfl
  | jbool b => rfl
  | arrNil => simp [Json.setKey, Json.lookup, h]
  | arrCons a r ih1 ih2 => rfl

/-- Assigning a key the value it already holds leaves the dict unchanged. -/
theorem Json.setKey_lookup_self {j : Json} {k : String} {v : Json}
    (h : j.lookup k = some v) : j.setKey k v = j := by
  induction j with
  | objCons k1 v1 rest ih1 ih2 =>
    by_cases hk : k1 = k
    · subst hk
      simp [Json.lookup] at h
      simp [Json.setKey, h]
    · simp only [Json.lookup, hk, if_false] at h
      simp [Json.setKey, hk, ih2 h]
  | objNil => simp [Json.lookup] at h
  | null => simp [Json.lookup] at h
  | str s => simp [Json.lookup] at h
  | num n => simp [Json.lookup] at h
  | jbool b => simp [Json.lookup] at h
  | arrNil => simp [Json.lookup] at h
  | arrCons a r ih1 ih2 => simp [Json.lookup] at h

/-- Two successive assignments to the same key collapse to the second. -/
theorem Json.setKey_setKey (j : Json) (k : String) (a b : Json) :
    (j.setKey k a).setKey k b = j.setKey k b := by
  induction j with
  | objCons k1 v1 rest ih1 ih2 =>
    by_cases hk : k1 = k
    · subst hk; simp [Json.setKey]
    · simp [Json.setKey, hk, ih2]
  | objNil => simp [Json.setKey]
  | null => rfl
  | str s => rfl
  | num n => rfl
  | jbool b2 => rfl
  | arrNil => simp [Json.setKey]
  | arrCons x r ih1 ih2 => rfl

/-- Round-trip of the array embedding. -/
theorem Json.toList_arrOf (l : List Json) : (Json.arrOf l).toList = l := by
  induction l with
  | nil => simp [Json.arrOf, Json.toList]
  | cons a rest ih => simp [Json.arrOf, Json.toList, ih]

/-! ## Task tracker lemmas and claims C3, C4 -/

/-- A poll loop over only non-terminal states times out: it raises the
timeout error, and the modelled elapsed time at the raise exceeds the
timeout by at most one polling interval.  The length bound guarantees the
scripted sequence is long enough for the timeout to fire. -/
theorem waitLoop_times_out (gs gd : Json → Json) (timeoutSecs intervalSecs : Nat) :
    ∀ (script : List Json) (e p s : Nat),
      (∀ d ∈ script, gs d ≠ Json.str "SUCCEEDED" ∧ gs d ≠ Json.str "FAILED") →
      e ≤ timeoutSecs + intervalSecs →
      timeoutSecs + intervalSecs < e + script.length * intervalSecs →
      ∃ stats : TrackStats,
        waitLoop gs gd timeoutSecs intervalSecs script e p s
          = (.raised (.taskTimeout timeoutSecs), stats) ∧
        stats.elapsedAtEnd ≤ timeoutSecs + intervalSecs := by
  intro script
  induction script with
  | nil =>
    intro e p s _ hle hlt
    simp at hlt
    omega
  | cons doc rest ih =>
    intro e p s hall hle hlt
    have hdoc := hall doc (by simp)
    by_cases hto : timeoutSecs < e
    · refine ⟨⟨p + 1, s, e⟩, ?_, hle⟩
      simp [waitLoop, hdoc.1, hdoc.2, hto]
    · have hstep : waitLoop gs gd timeoutSecs intervalSecs (doc :: rest) e p s
          = waitLoop gs gd timeoutSecs intervalSecs rest (e + intervalSecs)
              (p + 1) (s + 1) := by
        simp [waitLoop, hdoc.1, hdoc.2, hto]
      rw [hstep]
      refine ih (e + intervalSecs) (p + 1) (s + 1)
        (fun d hd => hall d (by simp [hd])) (by omega) ?_
      have hmul : (rest.length + 1) * intervalSecs
          = rest.length * intervalSecs + intervalSecs := Nat.succ_mul _ _
      simp only [List.length_cons] at hlt
      rw [hmul] at hlt
      omega

/-- Claim C3.  With the default timeout of 300 s and interval of 5 s, a
scripted poll sequence [PENDING, PENDING, SUCCEEDED] makes either tracker
variant return the SUCCEEDED document after exactly 3 polls and 2 sleeps;
and a sufficiently long all-PENDING sequence makes either variant raise the
timeout error with the modelled elapsed time exceeding the 300 s timeout by
at most one 5 s interval. -/
theorem claim_C3_task_tracker (p1 p2 sN q1 q2 sV : Json)
    (scrN scrV : List Json)
    (h1 : stateNet p1 = .str "PENDING") (h2 : stateNet p2 = .str "PENDING")
    (h3 : stateNet sN = .str "SUCCEEDED")
    (h4 : stateVm q1 = .str "PENDING") (h5 : stateVm q2 = .str "PENDING")
    (h6 : stateVm sV = .str "SUCCEEDED")
    (hallN : ∀ d ∈ scrN, stateNet d = .str "PENDING")
    (hlenN : 62 ≤ scrN.length)
    (hallV : ∀ d ∈ scrV, stateVm d = .str "PENDING")
    (hlenV : 62 ≤ scrV.length) :
    wait_for_task_net [p1, p2, sN] 300 5 = (.done sN, ⟨3, 2, 10⟩) ∧
    wait_for_task_vm [q1, q2, sV] 300 5 = (.done sV, ⟨3, 2, 10⟩) ∧
    (∃ stats : TrackStats,
      wait_for_task_net scrN 300 5 = (.raised (.taskTimeout 300), stats) ∧
      stats.elapsedAtEnd ≤ 300 + 5) ∧
    (∃ stats : TrackStats,
      wait_for_task_vm scrV 300 5 = (.raised (.taskTimeout 300), stats) ∧
      stats.elapsedAtEnd ≤ 300 + 5) := by
  refine ⟨?_, ?_, ?_, ?_⟩
  · simp [wait_for_task_net, waitLoop, h1, h2, h3]
  · simp [wait_for_task_vm, waitLoop, h4, h5, h6]
  · refine waitLoop_times_out stateNet detailNet 300 5 scrN 0 0 0 ?_ (by omega) ?_
    · intro d hd
      rw [hallN d hd]
      exact ⟨by simp, by simp⟩
    · have : 62 * 5 ≤ scrN.length * 5 := Nat.mul_le_mul_right 5 hlenN
      omega
  · refine waitLoop_times_out stateVm detailVm 300 5 scrV 0 0 0 ?_ (by omega) ?_
    · intro d hd
      rw [hallV d hd]
      exact ⟨by simp, by simp⟩
    · have : 62 * 5 ≤ scrV.length * 5 := Nat.mul_le_mul_right 5 hlenV
      omega

/-- Witness for C3 at concrete scripted sequences. -/
theorem claim_C3_task_tracker_witness :
    wait_for_task_net [cxPendNet, cxPendNet, cxSuccNet] 300 5
      = (.done cxSuccNet, ⟨3, 2, 10⟩) ∧
    wait_for_task_vm [cxPendVm, cxPendVm, cxSuccVm] 300 5
      = (.done cxSuccVm, ⟨3, 2, 10⟩) ∧
    (∃ stats : TrackStats,
      wait_for_task_net (List.replicate 62 cxPendNet) 300 5
        = (.raised (.taskTimeout 300), stats) ∧
      stats.elapsedAtEnd ≤ 300 + 5) ∧
    (∃ stats : TrackStats,
      wait_for_task_vm (List.replicate 62 cxPendVm) 300 5
        = (.raised (.taskTimeout 300), stats) ∧
      stats.elapsedAtEnd ≤ 300 + 5) :=
  claim_C3_task_tracker cxPendNet cxPendNet cxSuccNet cxPendVm cxPendVm cxSuccVm
    (List.replicate 62 cxPendNet) (List.replicate 62 cxPendVm)
    (by decide) (by decide) (by decide) (by decide) (by decide) (by decide)
    (by decide) (by decide) (by decide) (by decide)

/-- Claim C4.  A polled status document in the FAILED state makes either
tracker variant raise a task-failure error carrying the error detail read
from that document, or the placeholder detail when the document supplies
none. -/
theorem claim_C4_failed_detail (docN docV : Json) (restN restV : List Json)
    (dN dV : Json) (t i : Nat)
    (hfN : stateNet docN = .str "FAILED")
    (hfV : stateVm docV = .str "FAILED") :
    (docN.lookup "error_detail" = some dN →
      wait_for_task_net (docN :: restN) t i
        = (.raised (.taskFailed dN), ⟨1, 0, 0⟩)) ∧
    (docN.lookup "error_detail" = none →
      wait_for_task_net (docN :: restN) t i
        = (.raised (.taskFailed (.str "No error details available")), ⟨1, 0, 0⟩)) ∧
    ((docV.getD "status" .objNil).lookup "error_detail" = some dV →
      wait_for_task_vm (docV :: restV) t i
        = (.raised (.taskFailed dV), ⟨1, 0, 0⟩)) ∧
    ((docV.getD "status" .objNil).lookup "error_detail" = none →
      wait_for_task_vm (docV :: restV) t i
        = (.raised (.taskFailed (.str "No error details available")), ⟨1, 0, 0⟩)) := by
  refine ⟨?_, ?_, ?_, ?_⟩ <;> intro hd
  · simp [wait_for_task_net, waitLoop, hfN, detailNet, Json.getD, hd]
  · simp [wait_for_task_net, waitLoop, hfN, detailNet, Json.getD, hd]
  · simp only [Json.getD] at hd
    simp [wait_for_task_vm, waitLoop, hfV, detailVm, Json.getD, hd]
  · simp only [Json.getD] at hd
    simp [wait_for_task_vm, waitLoop, hfV, detailVm, Json.getD, hd]

/-- Witness for C4 at concrete FAILED documents with and without details. -/
theorem claim_C4_failed_detail_witness :
    wait_for_task_net [cxFailNet] 300 5
      = (.raised (.taskFailed (.str "boom")), ⟨1, 0, 0⟩) ∧
    wait_for_task_net [cxFailNetBare] 300 5
      = (.raised (.taskFailed (.str "No error details available")), ⟨1, 0, 0⟩) ∧
    wait_for_task_vm [cxFailVm] 300 5
      = (.raised (.taskFailed (.str "kaput")), ⟨1, 0, 0⟩) :=
  ⟨(claim_C4_failed_detail cxFailNet cxFailVm [] [] (.str "boom") (.str "kaput")
      300 5 (by decide) (by decide)).1 (by decide),
   (claim_C4_failed_detail cxFailNetBare cxFailVm [] [] (.str "x") (.str "kaput")
      300 5 (by decide) (by decide)).2.1 (by decide),
   (claim_C4_failed_detail cxFailNet cxFailVm [] [] (.str "boom") (.str "kaput")
      300 5 (by decide) (by decide)).2.2.1 (by decide)⟩

/-! ## Claim C1 -/

/-- Claim C1 (code bug).  On a fetched network whose `spec.resources` holds
`vlan_id: 55` and no chain reference, the batch-flow planner (`main`)
produces exactly the fetched `{metadata, spec}` document with the chain
reference added as one new key — but the standalone `update_network`
replaces the whole `resources` dict, so its payload has lost `vlan_id` and
differs from the one-key-added document, contradicting the documented
full-round-trip behaviour. -/
theorem claim_C1_update_network_drops_siblings :
    main_plan cxNet (.str "c1") = .ok (some cxNetMainPayload) ∧
    ((cxNetMainPayload.getD "spec" .objNil).getD "resources" .objNil).lookup
      "vlan_id" = some (.num 55) ∧
    update_network_plan cxNet (.str "c1") = .ok (some cxNetUpdPayload) ∧
    ((cxNetUpdPayload.getD "spec" .objNil).getD "resources" .objNil).hasKey
      "vlan_id" = false ∧
    cxNetUpdPayload ≠ cxNetMainPayload := by decide

/-! ## Claim C5 -/

/-- The linear scan of `find_network_by_vlan` is `List.find?` with the VLAN
predicate. -/
theorem scanForVlan_eq_find (vlan : Int) (l : List Json) :
    scanForVlan vlan l = l.find? (netHasVlan vlan) := by
  induction l with
  | nil => rfl
  | cons n rest ih =>
    by_cases h : netHasVlan vlan n = true
    · simp [scanForVlan, h, List.find?]
    · simp only [Bool.not_eq_true] at h
      simp [scanForVlan, h, List.find?, ih]

/-- Claim C5 (amended).  The locator issues exactly one page fetch at the
caller-supplied offset and length and scans only that single page: against
a server holding a fixed collection, `find_network_by_vlan` returns the
first VLAN match inside `collection[offset : offset+length]` and nothing
beyond it, and the request log holds exactly the one listing request —
there is no iteration until a short page. -/
theorem claim_C5_single_page_fetch (coll : List Json) (vlan : Int)
    (o l : Int) :
    find_network_by_vlan (pageServer coll) vlan o l
      = (((coll.drop o.toNat).take l.toNat).find? (netHasVlan vlan),
         [ApiReq.subnetsList o l]) := by
  simp [find_network_by_vlan, list_networks, pageServer, Json.obj, Json.getD,
    Json.lookup, Json.toList_arrOf, scanForVlan_eq_find]

/-- Counterexample for C5 as frozen.  For a collection of exactly pageSize
(2) entities followed by a final page of pageSize-1 (1) entities, the
listing performs exactly ONE page fetch (not two), returns only the first
page (not all entities), and a VLAN-55 match sitting on the second page is
not found. -/
theorem claim_C5_counterexample :
    (list_networks (pageServer cxColl) 0 2).2.length = 1 ∧
    (list_networks (pageServer cxColl) 0 2).1 = [cxE1, cxE2] ∧
    (list_networks (pageServer cxColl) 0 2).1 ≠ cxColl ∧
    (find_network_by_vlan (pageServer cxColl) 55 0 2).1 = none ∧
    netHasVlan 55 cxE3 = true ∧ cxE3 ∈ cxColl := by decide

/-! ## Claim C9 -/

/-- Lookup after an overwriting association-list update. -/
theorem lookupA_setKeyA (m : List (Json × Json)) (k v : Json) (k2 : Json) :
    lookupA (setKeyA m k v) k2 = if k = k2 then some v else lookupA m k2 := by
  induction m with
  | nil =>
    by_cases h : k = k2 <;> simp [setKeyA, lookupA, h]
  | cons p rest ih =>
    obtain ⟨a, b⟩ := p
    by_cases ha : a = k
    · subst ha
      by_cases h2 : a = k2 <;> simp [setKeyA, lookupA, h2]
    · by_cases h2 : a = k2
      · subst h2
        have hk : ¬ k = a := fun h => ha h.symm
        simp [setKeyA, ha, lookupA, hk]
      · simp [setKeyA, ha, lookupA, h2, ih]

/-- Membership of keys after an overwriting update. -/
theorem mem_keysA_setKeyA (m : List (Json × Json)) (k v : Json) (x : Json) :
    x ∈ keysA (setKeyA m k v) ↔ x = k ∨ x ∈ keysA m := by
  induction m with
  | nil => simp [setKeyA, keysA]
  | cons p rest ih =>
    obtain ⟨a, b⟩ := p
    by_cases ha : a = k
    · subst ha
      simp [setKeyA, keysA]
    · simp [setKeyA, ha, keysA] at ih ⊢
      tauto

/-- Overwriting updates preserve distinctness of keys. -/
theorem nodup_keysA_setKeyA (m : List (Json × Json)) (k v : Json)
    (h : (keysA m).Nodup) : (keysA (setKeyA m k v)).Nodup := by
  induction m with
  | nil => simp [setKeyA, keysA]
  | cons p rest ih =>
    obtain ⟨a, b⟩ := p
    simp only [keysA, List.map_cons, List.nodup_cons] at h
    by_cases ha : a = k
    · subst ha
      simpa [setKeyA, keysA, List.nodup_cons] using h
    · have hrest := ih h.2
      simp only [setKeyA, ha, if_false, keysA, List.map_cons, List.nodup_cons]
      refine ⟨?_, hrest⟩
      rw [show (setKeyA rest k v).map Prod.fst = keysA (setKeyA rest k v) from rfl,
        mem_keysA_setKeyA]
      rintro (h1 | h1)
      · exact ha h1
      · exact h.1 h1

/-- Option preference used to express the accumulator split of the
`cluster_chains` loop. -/
theorem buildClusterChainsAux_lookup (chains : List Json) :
    ∀ (acc : List (Json × Json)) (k : Json),
      lookupA (buildClusterChainsAux chains acc) k
        = match lastQualFor k chains with
          | some info => some info
          | none => lookupA acc k := by
  induction chains with
  | nil => intro acc k; simp [buildClusterChainsAux, lastQualFor]
  | cons chain rest ih =>
    intro acc k
    cases hq : qualInfo chain with
    | none =>
      simp only [buildClusterChainsAux, hq, lastQualFor, ih]
      cases lastQualFor k rest with
      | some info => rfl
      | none => simp [hq]
    | some p =>
      obtain ⟨cn, info⟩ := p
      simp only [buildClusterChainsAux, hq, lastQualFor, ih, lookupA_setKeyA]
      cases lastQualFor k rest with
      | some info2 => rfl
      | none =>
        simp only [hq]
        by_cases hc : cn = k <;> simp [hc]

/-- The keys of the built grouping are distinct. -/
theorem buildClusterChainsAux_nodup (chains : List Json) :
    ∀ acc : List (Json × Json), (keysA acc).Nodup →
      (keysA (buildClusterChainsAux chains acc)).Nodup := by
  induction chains with
  | nil => intro acc h; simpa [buildClusterChainsAux] using h
  | cons chain rest ih =>
    intro acc h
    cases hq : qualInfo chain with
    | none => simpa [buildClusterChainsAux, hq] using ih acc h
    | some p =>
      obtain ⟨cn, info⟩ := p
      simpa [buildClusterChainsAux, hq] using
        ih (setKeyA acc cn info) (nodup_keysA_setKeyA acc cn info h)

/-- Claim C9.  For every chain listing, looking up a cluster name in the
`cluster_chains` grouping built by the batch flow yields exactly the info of
the LAST qualifying vectra_tap chain with that cluster name in listing order
(later chains overwrite earlier ones), and the grouping associates at most
one entry with each cluster name. -/
theorem claim_C9_last_chain_wins (chains : List Json) (k : Json) :
    lookupA (buildClusterChains chains) k = lastQualFor k chains ∧
    (keysA (buildClusterChains chains)).Nodup := by
  constructor
  · rw [buildClusterChains, buildClusterChainsAux_lookup chains [] k]
    cases lastQualFor k chains <;> simp [lookupA]
  · exact buildClusterChainsAux_nodup chains [] (by simp [keysA])

/-! ## Claim C10 -/

/-- `startsWithL` recognises exactly the lists beginning with the pattern. -/
theorem startsWithL_iff (pat : List Char) :
    ∀ hay : List Char, startsWithL hay pat = true ↔ ∃ r, hay = pat ++ r := by
  induction pat with
  | nil => intro hay; simp [startsWithL]
  | cons b bs ih =>
    intro hay
    cases hay with
    | nil => simp [startsWithL]
    | cons a as =>
      simp only [startsWithL, Bool.and_eq_true, decide_eq_true_eq, ih as,
        List.cons_append, List.cons.injEq]
      constructor
      · rintro ⟨hab, r, hr⟩
        exact ⟨r, hab, hr⟩
      · rintro ⟨r, hab, hr⟩
        exact ⟨hab, r, hr⟩

/-- `occursIn` recognises exactly the lists containing the pattern as a
contiguous segment. -/
theorem occursIn_iff (pat : List Char) :
    ∀ hay : List Char, occursIn pat hay = true ↔ ∃ l r, hay = l ++ pat ++ r := by
  intro hay
  induction hay with
  | nil =>
    simp only [occursIn, startsWithL_iff]
    constructor
    · rintro ⟨r, hr⟩
      exact ⟨[], r, by simpa using hr⟩
    · rintro ⟨l, r, hr⟩
      have := hr.symm
      rw [List.append_assoc] at this
      rcases List.append_eq_nil.mp this with ⟨hl, hpr⟩
      rcases List.append_eq_nil.mp hpr with ⟨hp, hr2⟩
      exact ⟨[], by simp [hp]⟩
  | cons a as ih =>
    simp only [occursIn, Bool.or_eq_true, startsWithL_iff, ih]
    constructor
    · rintro (⟨r, hr⟩ | ⟨l, r, hr⟩)
      · exact ⟨[], r, by simpa using hr⟩
      · exact ⟨a :: l, r, by simp [hr]⟩
    · rintro ⟨l, r, hr⟩
      cases l with
      | nil => exact Or.inl ⟨r, by simpa using hr⟩
      | cons x xs =>
        simp only [List.cons_append, List.cons.injEq] at hr
        exact Or.inr ⟨xs, r, hr.2⟩

/-- Claim C10.  A query matches a VM exactly when the query, taken as a
literal character sequence (the compiled pattern is the escaped query, so
regex metacharacters have no special meaning), occurs case-insensitively as
a contiguous substring of the spec name of the VM; and the search returns `none`
(Python `(None, None)`) rather than raising exactly when no VM in the list
matches. -/
theorem claim_C10_vm_name_search (vms : List Json) (q : String) :
    (∀ vm : Json, ciMatch q (specNameOf vm) = true
        ↔ ∃ l r, lowerStr (specNameOf vm) = l ++ lowerStr q ++ r) ∧
    (find_vm_by_name vms q = none
        ↔ ∀ vm ∈ vms, ¬ ∃ l r, lowerStr (specNameOf vm) = l ++ lowerStr q ++ r) := by
  constructor
  · intro vm
    exact occursIn_iff (lowerStr q) (lowerStr (specNameOf vm))
  · induction vms with
    | nil => simp [find_vm_by_name]
    | cons vm rest ih =>
      by_cases h : ciMatch q (specNameOf vm) = true
      · have hmatch := (occursIn_iff (lowerStr q) (lowerStr (specNameOf vm))).mp h
        simp only [find_vm_by_name, h, if_true]
        constructor
        · intro hc; cases hc
        · intro hall
          exact absurd hmatch (hall vm (by simp))
      · have hnot : ¬ ∃ l r, lowerStr (specNameOf vm) = l ++ lowerStr q ++ r := by
          intro hc
          exact h ((occursIn_iff (lowerStr q) (lowerStr (specNameOf vm))).mpr hc)
        simp only [Bool.not_eq_true] at h
        simp only [find_vm_by_name, h, Bool.false_eq_true, if_false, ih]
        constructor
        · intro hall vm2 hm
          rcases List.mem_cons.mp hm with h2 | h2
          · subst h2; exact hnot
          · exact hall vm2 h2
        · intro hall vm2 hm
          exact hall vm2 (List.mem_cons_of_mem _ hm)

/-! ## Claim C2 -/

/-- A `get` with default on a present key yields the stored value. -/
theorem Json.getD_of_lookup {j : Json} {k : String} {v : Json}
    (h : j.lookup k = some v) (d : Json) : j.getD k d = v := by
  simp [Json.getD, h]

/-- Successful item assignment happens on dicts and yields `setKey`. -/
theorem Json.setIndex_ok {j : Json} {k : String} {v w : Json}
    (h : j.setIndex k v = .ok w) : j.isObj = true ∧ w = j.setKey k v := by
  unfold Json.setIndex at h
  split at h
  · cases h
    exact ⟨by assumption, rfl⟩
  · cases h

/-- Inversion of a successful batch-flow plan: the payload is the fetched
metadata and spec with the chain reference assigned into the (present)
resources dict. -/
theorem main_plan_ok_some {network cu payload : Json}
    (h : main_plan network cu = .ok (some payload)) :
    ∃ res, (network.getD "spec" .objNil).index "resources" = .ok res ∧
      res.isObj = true ∧
      payload = Json.obj [("metadata", network.getD "metadata" .objNil),
        ("spec", (network.getD "spec" .objNil).setKey "resources"
          (res.setKey "network_function_chain_reference" (chainRefObj cu)))] := by
  simp only [main_plan] at h
  split at h
  · simp at h
  · split at h
    · simp at h
    · rename_i res heq
      split at h
      · simp at h
      · rename_i res2 heq2
        obtain ⟨hobj, hset⟩ := Json.setIndex_ok heq2
        subst hset
        simp only [Except.ok.injEq, Option.some.injEq] at h
        exact ⟨res, heq, hobj, h.symm⟩

/-- Inversion of a successful standalone `update_network` plan: the UUID was
truthy, the resources dict was present without a chain reference, and the
payload carries a wholesale-replaced resources dict. -/
theorem update_network_plan_ok_some {network cu payload : Json}
    (h : update_network_plan network cu = .ok (some payload)) :
    ∃ u res,
      truthyOpt ((network.getD "metadata" .objNil).lookup "uuid") = some u ∧
      (network.getD "spec" .objNil).index "resources" = .ok res ∧
      payload = Json.obj [("metadata", network.getD "metadata" .objNil),
        ("spec", (network.getD "spec" .objNil).setKey "resources"
          (Json.obj [("network_function_chain_reference", chainRefObj cu)]))] := by
  simp only [update_network_plan] at h
  split at h
  · simp at h
  · rename_i u hu
    split at h
    · simp at h
    · rename_i res heq
      split at h
      · simp at h
      · split at h
        · simp only [Except.ok.injEq, Option.some.injEq] at h
          exact ⟨u, res, hu, heq, h.symm⟩
        · simp at h

/-- Claim C2 (amended).  The network planners skip — return the skip outcome
and submit nothing — whenever the chain reference is already present, and
re-planning the payload of a successful plan skips, so re-runs are no-ops;
the VM sensor planner however has no skip branch: it always submits, but on
a VM already carrying `network_function_provider: vectra_ai` the payload it
submits is exactly the un-mutated fetched document. -/
theorem claim_C2_skip_and_idempotence (network payload vm md cats cu cu2 u : Json)
    (env : NetEnv) (cn : Json) :
    (((network.getD "spec" .objNil).getD "resources" .objNil).hasKey
        "network_function_chain_reference" = true →
      main_plan network cu = .ok none) ∧
    (truthyOpt ((network.getD "metadata" .objNil).lookup "uuid") = some u →
      main_plan network cu = .ok none →
      processOne env ⟨network, cn, cu⟩ = ([], none)) ∧
    (((network.getD "spec" .objNil).getD "resources" .objNil).okObj = true →
      main_plan network cu = .ok (some payload) →
      main_plan payload cu2 = .ok none) ∧
    (update_network_plan network cu = .ok (some payload) →
      update_network_plan payload cu2 = .ok none) ∧
    (vm.lookup "metadata" = some md → md.lookup "categories" = some cats →
      cats.lookup "network_function_provider" = some (.str "vectra_ai") →
      update_vsensor_payload vm = .ok vm) := by
  refine ⟨?_, ?_, ?_, ?_, ?_⟩
  · intro hk
    simp [main_plan, hk]
  · intro hu hplan
    simp [processOne, hu, hplan]
  · intro hok h
    obtain ⟨res, hres, hresobj, hpay⟩ := main_plan_ok_some h
    have hspl : (network.getD "spec" .objNil).lookup "resources" = some res :=
      Json.index_ok_iff.mp hres
    have hresok : res.okObj = true := by
      rwa [Json.getD_of_lookup hspl] at hok
    have h1 : payload.getD "spec" .objNil
        = (network.getD "spec" .objNil).setKey "resources"
            (res.setKey "network_function_chain_reference" (chainRefObj cu)) := by
      rw [hpay]
      simp [Json.obj, Json.getD, Json.lookup]
    have h2 : ((network.getD "spec" .objNil).setKey "resources"
          (res.setKey "network_function_chain_reference"
            (chainRefObj cu))).lookup "resources"
        = some (res.setKey "network_function_chain_reference" (chainRefObj cu)) :=
      Json.lookup_setKey_some _ hspl
    have h3 : (res.setKey "network_function_chain_reference"
          (chainRefObj cu)).lookup "network_function_chain_reference"
        = some (chainRefObj cu) :=
      Json.lookup_setKey_self _ _ hresok
    have hcond : ((payload.getD "spec" .objNil).getD "resources"
          .objNil).hasKey "network_function_chain_reference" = true := by
      rw [h1, Json.getD_of_lookup h2]
      simp [Json.hasKey, h3]
    simp [main_plan, hcond]
  · intro h
    obtain ⟨u, res, hu, hres, hpay⟩ := update_network_plan_ok_some h
    have hspl : (network.getD "spec" .objNil).lookup "resources" = some res :=
      Json.index_ok_iff.mp hres
    have hsobj : (network.getD "spec" .objNil).isObj = true :=
      Json.lookup_isObj hspl
    have h1 : payload.getD "metadata" .objNil
        = network.getD "metadata" .objNil := by
      rw [hpay]
      simp [Json.obj, Json.getD, Json.lookup]
    have h2 : payload.getD "spec" .objNil
        = (network.getD "spec" .objNil).setKey "resources"
            (Json.obj [("network_function_chain_reference", chainRefObj cu)]) := by
      rw [hpay]
      simp [Json.obj, Json.getD, Json.lookup]
    have h3 : ((network.getD "spec" .objNil).setKey "resources"
          (Json.obj [("network_function_chain_reference",
            chainRefObj cu)])).lookup "resources"
        = some (Json.obj [("network_function_chain_reference", chainRefObj cu)]) :=
      Json.lookup_setKey_some _ hspl
    have h4 : (payload.getD "spec" .objNil).index "resources"
        = .ok (Json.obj [("network_function_chain_reference", chainRefObj cu)]) := by
      rw [h2]
      exact Json.index_ok_iff.mpr h3
    simp [update_network_plan, h1, hu, h4, Json.hasKey, Json.obj, Json.lookup]
  · intro hmd hcats hval
    have hcatsobj : cats.isObj = true := Json.lookup_isObj hval
    have hhk : md.hasKey "categories" = true := by simp [Json.hasKey, hcats]
    have hidx : vm.index "metadata" = .ok md := Json.index_ok_iff.mpr hmd
    have hidx2 : md.index "categories" = .ok cats := Json.index_ok_iff.mpr hcats
    have hset : cats.setKey "network_function_provider" (.str "vectra_ai")
        = cats := Json.setKey_lookup_self hval
    have hsi : cats.setIndex "network_function_provider" (.str "vectra_ai")
        = .ok cats := by
      rw [Json.setIndex, if_pos hcatsobj, hset]
    simp [update_vsensor_payload, hidx, hhk, hidx2, hsi,
      Json.setKey_lookup_self hcats, Json.setKey_lookup_self hmd]

/-- Counterexample for C2 as frozen.  A full sensor run against a VM whose
`metadata.categories` already carries `network_function_provider: vectra_ai`
still submits a PUT (the fetched document itself) — the sensor planner does
not return skip and an update IS submitted. -/
theorem claim_C2_counterexample :
    ((cxVmConf.getD "metadata" .objNil).getD "categories" .objNil).hasKey
      "network_function_provider" = true ∧
    update_vsensor_run cxVmEnv (.str "v1")
      = ([ApiReq.getVm (.str "v1"), ApiReq.putVm (.str "v1") cxVmConf], none) ∧
    ApiReq.putVm (.str "v1") cxVmConf ∈ (update_vsensor_run cxVmEnv (.str "v1")).1 := by
  decide

/-- Witness for C2 at concrete documents. -/
theorem claim_C2_skip_and_idempotence_witness :
    main_plan cxNetDone (.str "c1") = .ok none ∧
    processOne cxEnvC6 ⟨cxNetDone, .str "A", .str "c1"⟩ = ([], none) ∧
    main_plan cxNetMainPayload (.str "c9") = .ok none ∧
    update_network_plan cxNetUpdPayload (.str "c9") = .ok none ∧
    update_vsensor_payload cxVmConf = .ok cxVmConf := by
  refine ⟨?_, ?_, ?_, ?_, ?_⟩
  · exact (claim_C2_skip_and_idempotence cxNetDone .null .null .null .null
      (.str "c1") .null .null cxEnvC6 (.str "A")).1 (by decide)
  · exact (claim_C2_skip_and_idempotence cxNetDone .null .null .null .null
      (.str "c1") .null (.str "u3") cxEnvC6 (.str "A")).2.1 (by decide) (by decide)
  · exact (claim_C2_skip_and_idempotence cxNet cxNetMainPayload .null .null .null
      (.str "c1") (.str "c9") .null cxEnvC6 (.str "A")).2.2.1 (by decide) (by decide)
  · exact (claim_C2_skip_and_idempotence cxNet cxNetUpdPayload .null .null .null
      (.str "c1") (.str "c9") .null cxEnvC6 (.str "A")).2.2.2.1 (by decide)
  · exact (claim_C2_skip_and_idempotence cxNet .null cxVmConf
      (cxVmConf.getD "metadata" .objNil)
      ((cxVmConf.getD "metadata" .objNil).getD "categories" .objNil)
      .null .null .null cxEnvC6 (.str "A")).2.2.2.2 (by decide) (by decide) (by decide)

/-! ## Claim C6 -/

/-- Claim C6 (amended).  In the batch flow, an error raised while processing
one matched network — e.g. its update task failing under tracking —
propagates out of the loop to the boundary handler of `main`: the batch
result is that error together with the requests of the already-processed
leading portion only, and the remaining matched networks are never processed,
whatever they are. -/
theorem claim_C6_batch_aborts_on_task_failure (env : NetEnv)
    (ms1 ms2 : List MatchedNet) (m : MatchedNet) (reqs : List ApiReq)
    (e : PyErr)
    (hm : processOne env m = (reqs, some e))
    (hok : ∀ m2 ∈ ms1, (processOne env m2).2 = none) :
    processBatch env (ms1 ++ m :: ms2) = (reqsOf env ms1 ++ reqs, some e) := by
  induction ms1 with
  | nil =>
    simp [processBatch, hm, reqsOf]
  | cons m2 rest ih =>
    have h2 : (processOne env m2).2 = none := hok m2 (by simp)
    have hpair : processOne env m2 = ((processOne env m2).1, none) := by
      rw [← h2]
    have hih := ih (fun m3 hm3 => hok m3 (by simp [hm3]))
    simp only [List.cons_append, processBatch, reqsOf]
    rw [hpair]
    simp only [List.append_eq]
    rw [hih]
    simp [List.append_assoc]

/-- Counterexample for C6 as frozen.  Two matched networks, the first of
whose update tasks polls FAILED: the batch stops with that error after the
the PUT and poll of the first network — no PUT for the UUID of the second
network (u2) is
ever issued, so the remaining network is NOT processed. -/
theorem claim_C6_counterexample :
    processBatch cxEnvC6 [cxM1, cxM2]
      = ((processOne cxEnvC6 cxM1).1, some (.taskFailed (.str "boom"))) ∧
    (processOne cxEnvC6 cxM1).1
      = [ApiReq.putSubnet (.str "u1") cxNetMainPayload,
         ApiReq.getTask (.str "t1")] ∧
    (processBatch cxEnvC6 [cxM1, cxM2]).1.all
      (fun r => match r with
        | ApiReq.putSubnet u _ => decide (u ≠ .str "u2")
        | _ => true) = true := by
  decide

/-- Witness for C6 with an empty leading portion and one remaining network. -/
theorem claim_C6_batch_aborts_witness :
    processBatch cxEnvC6 ([] ++ cxM1 :: [cxM2])
      = (reqsOf cxEnvC6 []
          ++ [ApiReq.putSubnet (.str "u1") cxNetMainPayload,
              ApiReq.getTask (.str "t1")],
         some (.taskFailed (.str "boom"))) :=
  claim_C6_batch_aborts_on_task_failure cxEnvC6 [] [cxM2] cxM1
    [ApiReq.putSubnet (.str "u1") cxNetMainPayload, ApiReq.getTask (.str "t1")]
    (.taskFailed (.str "boom")) (by decide) (by simp)

/-! ## Claim C7 -/

/-- Counterexample for C7 as frozen.  On a network whose `spec` has no
`resources` key at all, BOTH network planners raise a `KeyError` instead of
creating the bag: the batch-flow planner at the bare
`update_spec["spec"]["resources"]` item assignment, the standalone planner
at the bare membership index. -/
theorem claim_C7_counterexample :
    (cxNetNoRes.getD "spec" .objNil).hasKey "resources" = false ∧
    main_plan cxNetNoRes (.str "c") = .error (.keyError "resources") ∧
    update_network_plan cxNetNoRes (.str "c") = .error (.keyError "resources") := by
  decide

/-- Claim C7 (amended).  Only the VM planner creates the missing bag: when
`metadata` lacks `categories`, `update_vsensor` first creates it as `{}`,
and the planned update is exactly the one planned for the same VM whose
bag is present but empty — planning succeeds without raising.  (The network
planners instead raise a `KeyError` on an absent `spec.resources`, per the
counterexample.) -/
theorem claim_C7_vm_planner_creates_bag (vm md : Json)
    (hmd : vm.lookup "metadata" = some md)
    (hno : md.hasKey "categories" = false)
    (hobj : md.okObj = true) :
    update_vsensor_payload vm
      = update_vsensor_payload (vm.setKey "metadata"
          (md.setKey "categories" .objNil)) ∧
    exOk (update_vsensor_payload vm) = true := by
  have hidx : vm.index "metadata" = .ok md := Json.index_ok_iff.mpr hmd
  have hmd1ok : (md.setKey "categories" Json.objNil).okObj = true := by
    rw [Json.okObj_setKey]
    exact hobj
  have hlk1 : (md.setKey "categories" Json.objNil).lookup "categories"
      = some Json.objNil := Json.lookup_setKey_self _ _ hobj
  have hidx1 : (md.setKey "categories" Json.objNil).index "categories"
      = .ok Json.objNil := Json.index_ok_iff.mpr hlk1
  have hsi : Json.objNil.setIndex "network_function_provider" (.str "vectra_ai")
      = .ok (Json.objNil.setKey "network_function_provider" (.str "vectra_ai")) :=
    rfl
  have hvm2lk : (vm.setKey "metadata"
        (md.setKey "categories" Json.objNil)).lookup "metadata"
      = some (md.setKey "categories" Json.objNil) :=
    Json.lookup_setKey_some _ hmd
  have hidx2 : (vm.setKey "metadata"
        (md.setKey "categories" Json.objNil)).index "metadata"
      = .ok (md.setKey "categories" Json.objNil) :=
    Json.index_ok_iff.mpr hvm2lk
  have hhk1 : (md.setKey "categories" Json.objNil).hasKey "categories" = true := by
    simp [Json.hasKey, hlk1]
  constructor
  · simp only [update_vsensor_payload, hidx, hidx2, hno, Bool.false_eq_true,
      if_false, hhk1, if_true, hidx1, hsi, Json.setKey_setKey]
  · simp [update_vsensor_payload, hidx, hno, hidx1, hsi, exOk]

/-- Witness for C7 at a concrete VM lacking the categories bag. -/
theorem claim_C7_vm_planner_creates_bag_witness :
    (update_vsensor_payload cxVmNoCats
      = update_vsensor_payload (cxVmNoCats.setKey "metadata"
          ((Json.obj [("uuid", .str "v2")]).setKey "categories" .objNil)) ∧
    exOk (update_vsensor_payload cxVmNoCats) = true) :=
  claim_C7_vm_planner_creates_bag cxVmNoCats (Json.obj [("uuid", .str "v2")])
    (by decide) (by decide) (by decide)

/-! ## Claim C8 -/

/-- A successful cluster-key extraction yields exactly the stored spec name
and metadata UUID. -/
theorem clusterKeys_ok_val {c nm uu : Json}
    (h : clusterKeys c = .ok (nm, uu)) :
    nm = (c.getD "spec" .objNil).getD "name" .null ∧
    uu = (c.getD "metadata" .objNil).getD "uuid" .null := by
  unfold clusterKeys at h
  split at h
  · cases h
  · rename_i sp hsp
    split at h
    · cases h
    · rename_i nm2 hnm
      split at h
      · cases h
      · rename_i md hmd
        split at h
        · cases h
        · rename_i uu2 huu
          simp only [Except.ok.injEq, Prod.mk.injEq] at h
          obtain ⟨h1, h2⟩ := h
          subst h1; subst h2
          constructor
          · rw [Json.getD_of_lookup (Json.index_ok_iff.mp hsp),
              Json.getD_of_lookup (Json.index_ok_iff.mp hnm)]
          · rw [Json.getD_of_lookup (Json.index_ok_iff.mp hmd),
              Json.getD_of_lookup (Json.index_ok_iff.mp huu)]

/-- The per-cluster creation loop, run over well-formed clusters with
well-formed creation responses, issues exactly one chain-creation request
per cluster, in listing order, and raises nothing. -/
theorem clusterLoop_ok (env : ProvEnv) :
    ∀ (cs : List Json) (i : Nat),
      (∀ c ∈ cs, exOk (clusterKeys c) = true) →
      (∀ j, j < cs.length → chainRespOK (env.chainResp (i + j)) = true) →
      clusterLoop env cs i = (cs.map chainReqOf, none) := by
  intro cs
  induction cs with
  | nil => intro i _ _; simp [clusterLoop]
  | cons c rest ih =>
    intro i hwf hresp
    have hc : exOk (clusterKeys c) = true := hwf c (by simp)
    cases hck : clusterKeys c with
    | error e => rw [hck] at hc; simp [exOk] at hc
    | ok p =>
      obtain ⟨nm, uu⟩ := p
      obtain ⟨hnm, huu⟩ := clusterKeys_ok_val hck
      have hr : chainRespOK (env.chainResp i) = true := by
        have := hresp 0 (by simp)
        simpa using this
      have hrest : clusterLoop env rest (i + 1) = (rest.map chainReqOf, none) := by
        refine ih (i + 1) (fun c2 hc2 => hwf c2 (by simp [hc2])) ?_
        intro j hj
        have := hresp (j + 1) (by simp; omega)
        have harith : i + (j + 1) = i + 1 + j := by omega
        rwa [harith] at this
      cases hmd : (env.chainResp i).index "metadata" with
      | error e =>
        simp [chainRespOK, hmd] at hr
      | ok md =>
        have hr2 : exOk (md.index "uuid") = true := by
          simpa [chainRespOK, hmd] using hr
        cases huuid : md.index "uuid" with
        | error e =>
          rw [huuid] at hr2
          simp [exOk] at hr2
        | ok w =>
          simp [clusterLoop, hck, hmd, huuid, hrest, chainReqOf, hnm, huu]

/-- Claim C8 (amended).  The provisioning flow: when the verification
listing lacks the expected provider value, it stops with a precondition
error right after the three category requests — before any chain-creation
request; when verification succeeds, the cluster listing is nonempty, each
cluster carries `spec.name` and `metadata.uuid`, and each creation response
carries `metadata.uuid`, it issues exactly one chain-creation request per
listed cluster followed by a final listing of all chains, raising nothing.
(When the cluster listing is empty, it instead raises "No clusters found"
before any chain creation and issues no final listing — see the
counterexample.) -/
theorem claim_C8_provisioning (env : ProvEnv) :
    (env.categories.any catValueMatch = false →
      provisionMain env
        = ([ApiReq.putCategory, ApiReq.putCategoryValue "vectra_ai",
            ApiReq.listCategories],
           some (.apiError
             "Provider value vectra_ai was not found in categories after creation")) ∧
      ∀ b, ApiReq.postChain b ∉ (provisionMain env).1) ∧
    (env.categories.any catValueMatch = true →
      env.clusters ≠ [] →
      (∀ c ∈ env.clusters, exOk (clusterKeys c) = true) →
      (∀ j, j < env.clusters.length → chainRespOK (env.chainResp j) = true) →
      provisionMain env
        = ([ApiReq.putCategory, ApiReq.putCategoryValue "vectra_ai",
            ApiReq.listCategories, ApiReq.listClusters]
            ++ env.clusters.map chainReqOf ++ [ApiReq.listChains], none)) := by
  constructor
  · intro hv
    constructor
    · simp [provisionMain, hv]
    · intro b
      simp [provisionMain, hv]
  · intro hv hne hwf hresp
    have hloop : clusterLoop env env.clusters 0
        = (env.clusters.map chainReqOf, none) := by
      refine clusterLoop_ok env env.clusters 0 hwf ?_
      intro j hj
      simpa using hresp j hj
    have hne2 : env.clusters.isEmpty = false := by
      cases hcl : env.clusters with
      | nil => exact absurd hcl hne
      | cons a l => simp
    simp [provisionMain, hv, hne2, hloop]

/-- Counterexample for C8 as frozen.  With the verification succeeding but
the cluster listing empty, the flow raises "No clusters found" right after
the cluster listing: no chain is created (consistent with the claim) but
the final listing of all chains is NOT issued either, although the claim
promises it whenever verification succeeds. -/
theorem claim_C8_counterexample :
    cxProvEnvEmpty.categories.any catValueMatch = true ∧
    provisionMain cxProvEnvEmpty
      = ([ApiReq.putCategory, ApiReq.putCategoryValue "vectra_ai",
          ApiReq.listCategories, ApiReq.listClusters],
         some (.apiError "No clusters found")) ∧
    ApiReq.listChains ∉ (provisionMain cxProvEnvEmpty).1 := by
  decide

/-- Witness for C8 with one well-formed cluster. -/
theorem claim_C8_provisioning_witness :
    provisionMain cxProvEnv
      = ([ApiReq.putCategory, ApiReq.putCategoryValue "vectra_ai",
          ApiReq.listCategories, ApiReq.listClusters]
          ++ [cxCluster].map chainReqOf ++ [ApiReq.listChains], none) :=
  (claim_C8_provisioning cxProvEnv).2 (by decide) (by decide)
    (by decide) (by decide)

/-- Witness for C5 at the concrete three-entity collection. -/
theorem claim_C5_single_page_fetch_witness :
    find_network_by_vlan (pageServer cxColl) 55 0 2
      = (((cxColl.drop (0 : Int).toNat).take (2 : Int).toNat).find?
           (netHasVlan 55),
         [ApiReq.subnetsList 0 2]) :=
  claim_C5_single_page_fetch cxColl 55 0 2

/-- Witness for C9 at two same-cluster chains. -/
theorem claim_C9_last_chain_wins_witness :
    lookupA (buildClusterChains [cxChainA1, cxChainA2]) (.str "A")
      = lastQualFor (.str "A") [cxChainA1, cxChainA2] ∧
    (keysA (buildClusterChains [cxChainA1, cxChainA2])).Nodup :=
  claim_C9_last_chain_wins [cxChainA1, cxChainA2] (.str "A")

/-- Witness for C10 at a one-VM list and an uppercase query. -/
theorem claim_C10_vm_name_search_witness :
    (∀ vm : Json, ciMatch "SENSOR" (specNameOf vm) = true
        ↔ ∃ l r, lowerStr (specNameOf vm) = l ++ lowerStr "SENSOR" ++ r) ∧
    (find_vm_by_name [cxVmConf] "SENSOR" = none
        ↔ ∀ vm ∈ [cxVmConf],
            ¬ ∃ l r, lowerStr (specNameOf vm) = l ++ lowerStr "SENSOR" ++ r) :=
  claim_C10_vm_name_search [cxVmConf] "SENSOR"
